import Mathlib

/-!
Verification of the response-framing state object of the Passenger
helper agent, as defined in
`src/ext/common/agents/HelperAgent/RequestHandler/AppResponse.h`,
and the annotation interface of `SpawnException` in
`src/ext/common/Exceptions.h`.

The C++ code is embedded shallowly: the class `AppResponse` becomes a
Lean structure, its const query methods become pure functions, and
machine integers become `Nat` (the relevant widths are noted; the only
arithmetic the source performs on them is comparison, so no overflow
arises).  The `aux` union is modelled as its raw 64-bit storage with
one read accessor per union member, which preserves the source's
overlapping-storage behaviour (setting `contentLength` to 0 zeroes
every member).
-/

namespace Passenger

/-- The `HttpState` enumeration of `AppResponse` (AppResponse.h lines
31-53), in declaration order; the underlying C++ values are the
default consecutive codes 0..8, exposed by `HttpState.val`. -/
inductive HttpState where
  | PARSING_HEADERS
  | PARSED_HEADERS
  | COMPLETE
  | PARSING_BODY_WITH_LENGTH
  | PARSING_CHUNKED_BODY
  | PARSING_BODY_UNTIL_EOF
  | UPGRADED
  | ONEHUNDRED_CONTINUE
  | ERROR
  deriving DecidableEq, Repr

/-- The underlying integer code of each `HttpState` enumerator (the
C++ enum assigns the default consecutive values 0..8). -/
def HttpState.val : HttpState → Nat
  | .PARSING_HEADERS => 0
  | .PARSED_HEADERS => 1
  | .COMPLETE => 2
  | .PARSING_BODY_WITH_LENGTH => 3
  | .PARSING_CHUNKED_BODY => 4
  | .PARSING_BODY_UNTIL_EOF => 5
  | .UPGRADED => 6
  | .ONEHUNDRED_CONTINUE => 7
  | .ERROR => 8

/-- The `BodyType` enumeration of `AppResponse` (AppResponse.h lines
56-67).  The C++ source assigns the explicit values 0, 1, 2, 4, 8
("deliberately chosen so that hasRequestBody() can be branchless");
these are exposed by `BodyType.val`. -/
inductive BodyType where
  | RBT_NO_BODY
  | RBT_UPGRADE
  | RBT_CONTENT_LENGTH
  | RBT_CHUNKED
  | RBT_UNTIL_EOF
  deriving DecidableEq, Repr

/-- The explicit integer value of each `BodyType` enumerator, exactly
as written in the C++ enum: 0, 1, 2, 4, 8. -/
def BodyType.val : BodyType → Nat
  | .RBT_NO_BODY => 0
  | .RBT_UPGRADE => 1
  | .RBT_CONTENT_LENGTH => 2
  | .RBT_CHUNKED => 4
  | .RBT_UNTIL_EOF => 8

/-- Modelled from the spec: `ServerKit::HeaderTable` is not part of
this repository's two source files; the spec (sections 2 and 3)
describes it as an append-friendly header store created with a fixed
initial capacity.  Only the constructor's initial-capacity argument
matters to the claims, so the model records that capacity together
with the (initially empty) list of entries. -/
structure HeaderTable where
  capacity : Nat
  entries : List (String × String)
  deriving DecidableEq, Repr

/-- Construction `HeaderTable(n)`: initial capacity `n` and no
entries. -/
def HeaderTable.make (n : Nat) : HeaderTable :=
  { capacity := n, entries := [] }

/-- Modelled from the spec: the opaque chunked-body tokenizer state
(`ServerKit::HttpChunkedBodyParserState`, external to this
repository); no claim inspects its contents, so it is an opaque
handle. -/
def ChunkedBodyParserState := Nat
  deriving DecidableEq

/-- The `parserState` union of `AppResponse` (AppResponse.h lines
79-84): exactly one of a pointer to header-tokenizer state (`NULL`
modelled as `none`; valid while `httpState == PARSING_HEADERS`) or a
chunked-body tokenizer state (valid while `httpState ==
PARSING_CHUNKED_BODY`). -/
inductive ParserState where
  | headerParser (p : Option Nat)
  | chunkedBodyParser (s : ChunkedBodyParserState)
  deriving DecidableEq

/-- Reading the `boost::uint64_t contentLength` member of the `aux`
union: the full 64-bit storage. -/
def readUInt64 (aux : Nat) : Nat :=
  aux % 2 ^ 64

/-- Reading a `bool` member of the `aux` union: the low byte of the
storage, nonzero meaning `true` (every write of a C++ `bool` stores 0
or 1 in that byte). -/
def readBoolByte (aux : Nat) : Bool :=
  aux % 2 ^ 8 != 0

/-- Reading the `int parseError` member of the `aux` union: the low 32
bits of the storage (the sign does not matter to any claim, so the raw
bit pattern is kept). -/
def readInt32 (aux : Nat) : Nat :=
  aux % 2 ^ 32

/-- The `AppResponse` class (AppResponse.h lines 29-176).  Field for
field from the source: `httpMajor`/`httpMinor` are `uint8_t`,
`statusCode` is `uint16_t`, `bodyAlreadyRead` is `uint64_t` (all
modelled as `Nat`; the source only compares them, never computes with
them), and `aux` is the raw 64-bit storage of the
`bodyInfo`/`parseError` union, read through the accessors below. -/
structure AppResponse where
  httpMajor : Nat
  httpMinor : Nat
  httpState : HttpState
  wantKeepAlive : Bool
  oneHundredContinueSent : Bool
  hasDateHeader : Bool
  bodyType : BodyType
  statusCode : Nat
  parserState : ParserState
  headers : HeaderTable
  secureHeaders : HeaderTable
  aux : Nat
  bodyAlreadyRead : Nat
  deriving DecidableEq

/-- Accessor for `aux.bodyInfo.contentLength` (valid when `bodyType ==
RBT_CONTENT_LENGTH`). -/
def AppResponse.contentLength (r : AppResponse) : Nat :=
  readUInt64 r.aux

/-- Accessor for `aux.bodyInfo.endChunkReached` (valid when `bodyType
== RBT_CHUNKED`). -/
def AppResponse.endChunkReached (r : AppResponse) : Bool :=
  readBoolByte r.aux

/-- Accessor for `aux.bodyInfo.endReached` (valid when `bodyType ==
RBT_UNTIL_EOF`). -/
def AppResponse.endReached (r : AppResponse) : Bool :=
  readBoolByte r.aux

/-- Accessor for `aux.parseError` (valid when `httpState ==
ERROR`). -/
def AppResponse.parseError (r : AppResponse) : Nat :=
  readInt32 r.aux

/-- The `AppResponse()` constructor (AppResponse.h lines 107-114).
The C++ constructor initialises only `headers(16)`, `secureHeaders(0)`,
`bodyAlreadyRead(0)`, `parserState.headerParser = NULL` and
`aux.bodyInfo.contentLength = 0` (which zeroes the entire union); the
remaining members are left with whatever indeterminate contents the
memory held, modelled by passing them through from the pre-state
`pre`. -/
def AppResponse.construct (pre : AppResponse) : AppResponse :=
  { pre with
    headers := HeaderTable.make 16
    secureHeaders := HeaderTable.make 0
    bodyAlreadyRead := 0
    parserState := ParserState.headerParser none
    aux := 0 }

/-- Embedding of `getHttpStateString()` (AppResponse.h lines
116-137): the switch on the stored `httpState` code.  The C++ switch covers the nine
enumerators and has no default, so control falls off the end of the
non-void function for any other stored value; that
undefined-behaviour branch is modelled as `none`. -/
def httpStateNameOfCode : Nat → Option String
  | 0 => some "PARSING_HEADERS"
  | 1 => some "PARSED_HEADERS"
  | 2 => some "COMPLETE"
  | 3 => some "PARSING_BODY_WITH_LENGTH"
  | 4 => some "PARSING_CHUNKED_BODY"
  | 5 => some "PARSING_BODY_UNTIL_EOF"
  | 6 => some "UPGRADED"
  | 7 => some "ONEHUNDRED_CONTINUE"
  | 8 => some "ERROR"
  | _ => none

/-- Embedding of `getBodyTypeString()` (AppResponse.h lines 139-152):
the switch on the stored `bodyType` code, cases in source order (note the source
returns the prefixed name for `RBT_UNTIL_EOF`); any value outside the
five enumerators falls off the end of the function, modelled as
`none`. -/
def bodyTypeNameOfCode : Nat → Option String
  | 0 => some "NO_BODY"
  | 1 => some "UPGRADE"
  | 2 => some "CONTENT_LENGTH"
  | 8 => some "RBT_UNTIL_EOF"
  | 4 => some "CHUNKED"
  | _ => none

/-- Method `r.getHttpStateString()`. -/
def AppResponse.getHttpStateString (r : AppResponse) : Option String :=
  httpStateNameOfCode r.httpState.val

/-- Method `r.getBodyTypeString()`. -/
def AppResponse.getBodyTypeString (r : AppResponse) : Option String :=
  bodyTypeNameOfCode r.bodyType.val

/-- Embedding of `bodyFullyRead()` (AppResponse.h lines 154-167), the
switch on `bodyType` case for case from the source. -/
def AppResponse.bodyFullyRead (r : AppResponse) : Bool :=
  match r.bodyType with
  | .RBT_NO_BODY => true
  | .RBT_UPGRADE => false
  | .RBT_CONTENT_LENGTH => r.bodyAlreadyRead ≥ r.contentLength
  | .RBT_CHUNKED => r.endChunkReached
  | .RBT_UNTIL_EOF => r.endReached

/-- Embedding of `hasBody()` (AppResponse.h lines 169-171): the branchless bitmask
test `bodyType & (RBT_CONTENT_LENGTH | RBT_CHUNKED | RBT_UNTIL_EOF)`,
converted to `bool` by the C++ nonzero test. -/
def AppResponse.hasBody (r : AppResponse) : Bool :=
  r.bodyType.val &&&
      (BodyType.RBT_CONTENT_LENGTH.val |||
       BodyType.RBT_CHUNKED.val |||
       BodyType.RBT_UNTIL_EOF.val) != 0

/-- Embedding of `canKeepAlive()` (AppResponse.h lines 173-175). -/
def AppResponse.canKeepAlive (r : AppResponse) : Bool :=
  r.wantKeepAlive && r.bodyFullyRead

/-- A call of a `const`-qualified query method on an `AppResponse`:
it produces the query's result together with the post-state of the
object.  The embedded methods are pure functions of the state, so the
post-state is the argument itself; this definition makes the frame
property of the claims statable. -/
def constCall {α : Type} (f : AppResponse → α) (r : AppResponse) : α × AppResponse :=
  (f r, r)

/-- Advancing the `bodyAlreadyRead` counter to `n` (the mutation the
relay performs outside this header as body bytes are delivered); all
other fields are untouched. -/
def AppResponse.setBodyAlreadyRead (r : AppResponse) (n : Nat) : AppResponse :=
  { r with bodyAlreadyRead := n }

/-- Specification-side restatement of `isBodyFullyConsumed()` (spec
section 4.1): `NO_BODY` is true; `UPGRADE` is false; `CONTENT_LENGTH`
compares the bytes consumed against the declared length; `CHUNKED` is
the terminator-chunk flag; `UNTIL_EOF` is the EOF-observed flag.  To
be compared with the source-side `AppResponse.bodyFullyRead`. -/
def bodyFullyReadSpec (r : AppResponse) : Bool :=
  match r.bodyType with
  | .RBT_NO_BODY => true
  | .RBT_UPGRADE => false
  | .RBT_CONTENT_LENGTH => decide (r.contentLength ≤ r.bodyAlreadyRead)
  | .RBT_CHUNKED => r.endChunkReached
  | .RBT_UNTIL_EOF => r.endReached

/-- The `ErrorKind` enumeration of `SpawnException` (Exceptions.h
lines 191-199). -/
inductive ErrorKind where
  | UNDEFINED_ERROR
  | PRELOADER_STARTUP_PROTOCOL_ERROR
  | PRELOADER_STARTUP_TIMEOUT
  | PRELOADER_STARTUP_EXPLAINABLE_ERROR
  | APP_STARTUP_PROTOCOL_ERROR
  | APP_STARTUP_TIMEOUT
  | APP_STARTUP_EXPLAINABLE_ERROR
  deriving DecidableEq, Repr

/-- Writing `m[k] = v` on a `std::map<string, string>`: the entry
under key `k` is overwritten if one is present, otherwise a new entry
is inserted; every other entry is unchanged. -/
def mapSet (m : List (String × String)) (k v : String) : List (String × String) :=
  match m with
  | [] => [(k, v)]
  | (k0, v0) :: rest =>
      if k0 = k then (k, v) :: rest else (k0, v0) :: mapSet rest k v

/-- The `SpawnException` class (Exceptions.h lines 189-286), field for
field from the source; the `annotations` map of `std::map<string,
string>` is modelled as an association list `annots` looked up by
first match (a `std::map` holds at most one entry per key). -/
structure SpawnException where
  errorKind : ErrorKind
  msg : String
  m_hasErrorPage : Bool
  m_isHTML : Bool
  m_errorPage : String
  preloaderCommand : String
  annots : List (String × String)
  deriving DecidableEq

/-- Embedding of `get(name)` (Exceptions.h lines 278-285): the stored value if an
annotation with that name is present, the empty string `string()`
otherwise. -/
def SpawnException.get (e : SpawnException) (name : String) : String :=
  match e.annots.lookup name with
  | none => ""
  | some v => v

/-- Embedding of `operator[](name)` (Exceptions.h lines 274-276):
delegates to `get(name)`. -/
def SpawnException.opIndex (e : SpawnException) (name : String) : String :=
  e.get name

/-- Embedding of `addAnnotations(m)` (Exceptions.h lines 263-268): iterates over
the entries of `m` in order and writes each into the stored map with
`this->annotations[it->first] = it->second`. -/
def SpawnException.addAnnots (e : SpawnException)
    (m : List (String × String)) : SpawnException :=
  { e with annots := m.foldl (fun acc kv => mapSet acc kv.1 kv.2) e.annots }

/-- A concrete `AppResponse` in the middle of reading a
Content-Length body of declared length 5 (raw `aux` storage 5). -/
def sampleResponse : AppResponse :=
  { httpMajor := 1
    httpMinor := 1
    httpState := HttpState.PARSING_BODY_WITH_LENGTH
    wantKeepAlive := true
    oneHundredContinueSent := false
    hasDateHeader := true
    bodyType := BodyType.RBT_CONTENT_LENGTH
    statusCode := 200
    parserState := ParserState.headerParser none
    headers := HeaderTable.make 16
    secureHeaders := HeaderTable.make 0
    aux := 5
    bodyAlreadyRead := 0 }

/-- A concrete pre-state standing for the indeterminate memory
contents an `AppResponse` is constructed over: here the stale
`httpState` bits happen to spell `ERROR`. -/
def uninitializedPre : AppResponse :=
  { httpMajor := 0
    httpMinor := 9
    httpState := HttpState.ERROR
    wantKeepAlive := false
    oneHundredContinueSent := true
    hasDateHeader := false
    bodyType := BodyType.RBT_UPGRADE
    statusCode := 503
    parserState := ParserState.chunkedBodyParser (7 : Nat)
    headers := HeaderTable.make 3
    secureHeaders := HeaderTable.make 4
    aux := 99
    bodyAlreadyRead := 12 }

/-- A concrete `SpawnException` with two annotations stored. -/
def sampleExn : SpawnException :=
  { errorKind := ErrorKind.APP_STARTUP_PROTOCOL_ERROR
    msg := "could not start"
    m_hasErrorPage := false
    m_isHTML := false
    m_errorPage := ""
    preloaderCommand := ""
    annots := [("a", "0"), ("c", "3")] }

/-- A concrete annotation map to merge into `sampleExn`. -/
def demoAnnots : List (String × String) :=
  [("a", "1"), ("b", "2")]

theorem lookup_mapSet_self (m : List (String × String)) (k v : String) :
    (mapSet m k v).lookup k = some v := by
  induction m with
  | nil => simp [mapSet]
  | cons kv rest ih =>
      obtain ⟨k0, v0⟩ := kv
      by_cases h : k0 = k
      · simp [mapSet, h, List.lookup_cons]
      · simp [mapSet, h, List.lookup_cons, beq_false_of_ne (Ne.symm h), ih]

theorem lookup_mapSet_ne (m : List (String × String)) (k v k' : String)
    (hne : k' ≠ k) : (mapSet m k v).lookup k' = m.lookup k' := by
  induction m with
  | nil => simp [mapSet, beq_false_of_ne hne, hne]
  | cons kv rest ih =>
      obtain ⟨k0, v0⟩ := kv
      by_cases h : k0 = k
      · subst h
        simp [mapSet, List.lookup_cons, beq_false_of_ne hne]
      · by_cases h' : k' = k0
        · simp [mapSet, h, List.lookup_cons, h']
        · simp [mapSet, h, List.lookup_cons, beq_false_of_ne h', ih]

theorem lookup_addFold_not_mem (m : List (String × String))
    (ann : List (String × String)) (k : String)
    (hk : k ∉ m.map Prod.fst) :
    (m.foldl (fun acc kv => mapSet acc kv.1 kv.2) ann).lookup k
      = ann.lookup k := by
  induction m generalizing ann with
  | nil => rfl
  | cons kv rest ih =>
      obtain ⟨k0, v0⟩ := kv
      simp only [List.map_cons, List.mem_cons] at hk
      push_neg at hk
      simp only [List.foldl_cons]
      rw [ih _ hk.2, lookup_mapSet_ne _ _ _ _ hk.1]

theorem lookup_addFold_mem (m : List (String × String))
    (ann : List (String × String)) (k v : String)
    (hnd : (m.map Prod.fst).Nodup) (hkv : m.lookup k = some v) :
    (m.foldl (fun acc kv => mapSet acc kv.1 kv.2) ann).lookup k
      = some v := by
  induction m generalizing ann with
  | nil => simp [List.lookup] at hkv
  | cons kv0 rest ih =>
      obtain ⟨k0, v0⟩ := kv0
      simp only [List.map_cons, List.nodup_cons] at hnd
      simp only [List.foldl_cons]
      by_cases h : k = k0
      · subst h
        simp only [List.lookup_cons, beq_self_eq_true, cond_true] at hkv
        rw [lookup_addFold_not_mem _ _ _ hnd.1, lookup_mapSet_self, hkv]
      · rw [List.lookup_cons] at hkv
        rw [beq_false_of_ne h] at hkv
        exact ih _ hnd.2 hkv

theorem httpStateNameOfCode_default (n : Nat) :
    httpStateNameOfCode (n + 9) = none := rfl

theorem bodyTypeNameOfCode_default (n : Nat) :
    bodyTypeNameOfCode (n + 9) = none := rfl

/-- C1: for every `AppResponse` state, `canKeepAlive()` returns true
if and only if `wantKeepAlive` is true and `bodyFullyRead()` is true
(the iff settles all four boolean combinations of the two conjuncts);
in particular `canKeepAlive()` is never true while `bodyFullyRead()`
is false (second conjunct, as a boolean equation). -/
theorem canKeepAlive_iff (r : AppResponse) :
    (r.canKeepAlive = true ↔
      (r.wantKeepAlive = true ∧ r.bodyFullyRead = true)) ∧
    (r.canKeepAlive && !r.bodyFullyRead) = false := by
  constructor
  · simp [AppResponse.canKeepAlive]
  · cases hw : r.wantKeepAlive <;> cases hb : r.bodyFullyRead <;>
      simp [AppResponse.canKeepAlive, hw, hb]

/-- C2: `bodyFullyRead()` returns exactly the case analysis on
`bodyType` given by the spec: `RBT_NO_BODY` is true regardless of the
other fields, `RBT_UPGRADE` is false regardless of the other fields,
`RBT_CONTENT_LENGTH` compares `bodyAlreadyRead` against
`contentLength`, `RBT_CHUNKED` is the `endChunkReached` flag and
`RBT_UNTIL_EOF` is the `endReached` flag (stated as agreement with
the spec-side `bodyFullyReadSpec` on every state). -/
theorem bodyFullyRead_cases (r : AppResponse) :
    r.bodyFullyRead = bodyFullyReadSpec r := by
  cases h : r.bodyType <;>
    simp [AppResponse.bodyFullyRead, bodyFullyReadSpec, h, ge_iff_le]

/-- C3: when `bodyType` is `RBT_CONTENT_LENGTH` and the stored
`contentLength` is strictly positive, `bodyFullyRead()` is false for
every `bodyAlreadyRead` below `contentLength` and true from
`contentLength` upward; hence it is monotone in `bodyAlreadyRead`
(once true it never becomes false again as the counter grows) and it
is false at `bodyAlreadyRead == 0`. -/
theorem bodyFullyRead_contentLength_mono (r : AppResponse)
    (hbt : r.bodyType = BodyType.RBT_CONTENT_LENGTH)
    (hpos : 0 < r.contentLength) :
    (∀ n, n < r.contentLength →
      (r.setBodyAlreadyRead n).bodyFullyRead = false) ∧
    (∀ n, r.contentLength ≤ n →
      (r.setBodyAlreadyRead n).bodyFullyRead = true) ∧
    (∀ n m, n ≤ m → (r.setBodyAlreadyRead n).bodyFullyRead = true →
      (r.setBodyAlreadyRead m).bodyFullyRead = true) ∧
    (r.setBodyAlreadyRead 0).bodyFullyRead = false := by
  have hread : ∀ n, (r.setBodyAlreadyRead n).bodyFullyRead
      = decide (r.contentLength ≤ n) := by
    intro n
    simp [AppResponse.setBodyAlreadyRead, AppResponse.bodyFullyRead,
      AppResponse.contentLength, hbt, ge_iff_le]
  refine ⟨?_, ?_, ?_, ?_⟩
  · intro n hn
    rw [hread]
    exact decide_eq_false (Nat.not_le.mpr hn)
  · intro n hn
    rw [hread]
    exact decide_eq_true hn
  · intro n m hnm hn
    rw [hread] at hn ⊢
    exact decide_eq_true (Nat.le_trans (of_decide_eq_true hn) hnm)
  · rw [hread]
    exact decide_eq_false (Nat.not_le.mpr hpos)

/-- Witness for C3: `sampleResponse` has body type
`RBT_CONTENT_LENGTH` with declared length 5; `bodyFullyRead()` is
false at 0 bytes read and true at 5 bytes read. -/
theorem bodyFullyRead_contentLength_mono_witness :
    sampleResponse.bodyType = BodyType.RBT_CONTENT_LENGTH ∧
    0 < sampleResponse.contentLength ∧
    (sampleResponse.setBodyAlreadyRead 0).bodyFullyRead = false ∧
    (sampleResponse.setBodyAlreadyRead 5).bodyFullyRead = true :=
  ⟨rfl, by decide,
    (bodyFullyRead_contentLength_mono sampleResponse rfl (by decide)).2.2.2,
    (bodyFullyRead_contentLength_mono sampleResponse rfl
      (by decide)).2.1 5 (by decide)⟩

/-- C4: `hasBody()` is true exactly for the three body-carrying
types `RBT_CONTENT_LENGTH`, `RBT_CHUNKED`, `RBT_UNTIL_EOF` (false for
`RBT_NO_BODY` and `RBT_UPGRADE`); the branchless bitmask coincides
with this case membership because the five enumerators carry the
pairwise-disjoint values 0, 1, 2, 4, 8 (listed as the remaining
conjuncts). -/
theorem hasBody_iff (r : AppResponse) :
    (r.hasBody = true ↔
      (r.bodyType = BodyType.RBT_CONTENT_LENGTH ∨
        r.bodyType = BodyType.RBT_CHUNKED ∨
        r.bodyType = BodyType.RBT_UNTIL_EOF)) ∧
    BodyType.RBT_NO_BODY.val = 0 ∧
    BodyType.RBT_UPGRADE.val = 1 ∧
    BodyType.RBT_CONTENT_LENGTH.val = 2 ∧
    BodyType.RBT_CHUNKED.val = 4 ∧
    BodyType.RBT_UNTIL_EOF.val = 8 := by
  refine ⟨?_, rfl, rfl, rfl, rfl, rfl⟩
  cases h : r.bodyType <;>
    simp only [AppResponse.hasBody, h, BodyType.val] <;> decide

/-- C5, counterexample: the `AppResponse()` constructor assigns no
value to `httpState`, so constructing over memory whose stale
`httpState` bits spell `ERROR` does not yield `PARSING_HEADERS`. -/
theorem construct_httpState_counterexample :
    decide ((AppResponse.construct uninitializedPre).httpState
      = HttpState.PARSING_HEADERS) = false := by decide

/-- C5, amended: the constructor leaves `httpState` exactly as the
pre-construction memory had it (it assigns no value to the field);
the initial `PARSING_HEADERS` phase of the state machine is
established by the external relay, not by the constructor. -/
theorem construct_leaves_httpState (pre : AppResponse) :
    (AppResponse.construct pre).httpState = pre.httpState := rfl

/-- C6: the diagnostic renderers are total on the defined
enumerations: `getHttpStateString()` returns a string (no fall-off)
for each of the nine `HttpState` enumerators and
`getBodyTypeString()` for each of the five `BodyType` enumerators;
the fall-off-the-end branch (modelled `none`) is reachable only for
stored codes outside the enumerators' values. -/
theorem stateStrings_total :
    (∀ s : HttpState, (httpStateNameOfCode s.val).isSome = true) ∧
    (∀ b : BodyType, (bodyTypeNameOfCode b.val).isSome = true) ∧
    (∀ n : Nat,
      (httpStateNameOfCode n).isSome = true ↔ n ∈ [0, 1, 2, 3, 4, 5, 6, 7, 8]) ∧
    (∀ n : Nat,
      (bodyTypeNameOfCode n).isSome = true ↔ n ∈ [0, 1, 2, 4, 8]) := by
  refine ⟨fun s => by cases s <;> rfl, fun b => by cases b <;> rfl, ?_, ?_⟩
  · intro n
    by_cases hn : n < 9
    · interval_cases n <;> decide
    · obtain ⟨m, rfl⟩ : ∃ m, n = m + 9 := ⟨n - 9, by omega⟩
      simp [httpStateNameOfCode_default]
  · intro n
    by_cases hn : n < 9
    · interval_cases n <;> decide
    · obtain ⟨m, rfl⟩ : ∃ m, n = m + 9 := ⟨n - 9, by omega⟩
      simp [bodyTypeNameOfCode_default]

/-- C7: the five queries are pure: a call (modelled by `constCall`)
returns the object unchanged, and a second call on the state left by
the first returns the same result (two-run determinism). -/
theorem queries_pure (r : AppResponse) :
    ((constCall AppResponse.bodyFullyRead r).2 = r ∧
      (constCall AppResponse.bodyFullyRead
          ((constCall AppResponse.bodyFullyRead r).2)).1
        = (constCall AppResponse.bodyFullyRead r).1) ∧
    ((constCall AppResponse.hasBody r).2 = r ∧
      (constCall AppResponse.hasBody
          ((constCall AppResponse.hasBody r).2)).1
        = (constCall AppResponse.hasBody r).1) ∧
    ((constCall AppResponse.canKeepAlive r).2 = r ∧
      (constCall AppResponse.canKeepAlive
          ((constCall AppResponse.canKeepAlive r).2)).1
        = (constCall AppResponse.canKeepAlive r).1) ∧
    ((constCall AppResponse.getHttpStateString r).2 = r ∧
      (constCall AppResponse.getHttpStateString
          ((constCall AppResponse.getHttpStateString r).2)).1
        = (constCall AppResponse.getHttpStateString r).1) ∧
    ((constCall AppResponse.getBodyTypeString r).2 = r ∧
      (constCall AppResponse.getBodyTypeString
          ((constCall AppResponse.getBodyTypeString r).2)).1
        = (constCall AppResponse.getBodyTypeString r).1) :=
  ⟨⟨rfl, rfl⟩, ⟨rfl, rfl⟩, ⟨rfl, rfl⟩, ⟨rfl, rfl⟩, ⟨rfl, rfl⟩⟩

/-- C8: `getBodyTypeString()` strips the `RBT_` prefix for four of
the five body types but returns the prefixed name for
`RBT_UNTIL_EOF`, so the diagnostic naming is not uniform (final
conjunct: the unprefixed name is not what is returned there). -/
theorem getBodyTypeString_values :
    bodyTypeNameOfCode BodyType.RBT_NO_BODY.val = some "NO_BODY" ∧
    bodyTypeNameOfCode BodyType.RBT_UPGRADE.val = some "UPGRADE" ∧
    bodyTypeNameOfCode BodyType.RBT_CONTENT_LENGTH.val
      = some "CONTENT_LENGTH" ∧
    bodyTypeNameOfCode BodyType.RBT_CHUNKED.val = some "CHUNKED" ∧
    bodyTypeNameOfCode BodyType.RBT_UNTIL_EOF.val = some "RBT_UNTIL_EOF" ∧
    (bodyTypeNameOfCode BodyType.RBT_UNTIL_EOF.val
      == some "UNTIL_EOF") = false := by
  refine ⟨rfl, rfl, rfl, rfl, rfl, ?_⟩
  decide

/-- C9: postconditions of the `AppResponse()` constructor:
`bodyAlreadyRead` is 0, the header-parser pointer is `NULL`, the
entire `aux` union is zero (so `contentLength` reads 0,
`endChunkReached` and `endReached` read false and `parseError` reads
0), `headers` has initial capacity 16 and `secureHeaders` initial
capacity 0; `httpState` and `bodyType` are not assigned (they keep
the pre-construction contents). -/
theorem construct_postconditions (pre : AppResponse) :
    (AppResponse.construct pre).bodyAlreadyRead = 0 ∧
    (AppResponse.construct pre).parserState
      = ParserState.headerParser none ∧
    (AppResponse.construct pre).aux = 0 ∧
    (AppResponse.construct pre).contentLength = 0 ∧
    (AppResponse.construct pre).endChunkReached = false ∧
    (AppResponse.construct pre).endReached = false ∧
    (AppResponse.construct pre).parseError = 0 ∧
    (AppResponse.construct pre).headers = HeaderTable.make 16 ∧
    (AppResponse.construct pre).headers.capacity = 16 ∧
    (AppResponse.construct pre).secureHeaders = HeaderTable.make 0 ∧
    (AppResponse.construct pre).secureHeaders.capacity = 0 ∧
    (AppResponse.construct pre).httpState = pre.httpState ∧
    (AppResponse.construct pre).bodyType = pre.bodyType :=
  ⟨rfl, rfl, rfl, rfl, rfl, rfl, rfl,
    rfl, rfl, rfl, rfl, rfl, rfl⟩

/-- C10: `get(name)` returns the stored value when an annotation
named `name` is present and the empty string when it is absent;
`operator[]` agrees with `get`; and `addAnnotations(m)` makes every
key of `m` present with the value from `m`, overwriting any existing
entry under the same key and leaving entries under other keys
unchanged. -/
theorem spawnException_annots (e : SpawnException) (name : String)
    (m : List (String × String)) (hnd : (m.map Prod.fst).Nodup) :
    (∀ v, e.annots.lookup name = some v → e.get name = v) ∧
    (e.annots.lookup name = none → e.get name = "") ∧
    e.opIndex name = e.get name ∧
    (∀ k v, m.lookup k = some v →
      (e.addAnnots m).annots.lookup k = some v ∧ (e.addAnnots m).get k = v) ∧
    (∀ k, k ∉ m.map Prod.fst → (e.addAnnots m).get k = e.get k) := by
  refine ⟨?_, ?_, rfl, ?_, ?_⟩
  · intro v hv
    simp [SpawnException.get, hv]
  · intro hv
    simp [SpawnException.get, hv]
  · intro k v hkv
    have hl : (e.addAnnots m).annots.lookup k = some v :=
      lookup_addFold_mem m e.annots k v hnd hkv
    exact ⟨hl, by simp [SpawnException.get, hl]⟩
  · intro k hk
    have hl := lookup_addFold_not_mem m e.annots k hk
    simp [SpawnException.get, SpawnException.addAnnots] at hl ⊢
    rw [hl]

/-- Witness for C10 at `sampleExn` and `demoAnnots`: the merged map
overwrites the entry under "a", inserts the new key "b" and leaves
the untouched key "c" unchanged; `operator[]` agrees with `get`. -/
theorem spawnException_annots_witness :
    (demoAnnots.map Prod.fst).Nodup ∧
    (sampleExn.addAnnots demoAnnots).get "a" = "1" ∧
    (sampleExn.addAnnots demoAnnots).get "b" = "2" ∧
    (sampleExn.addAnnots demoAnnots).get "c" = sampleExn.get "c" ∧
    sampleExn.opIndex "a" = sampleExn.get "a" := by
  have hnd : (demoAnnots.map Prod.fst).Nodup := by decide
  have h := spawnException_annots sampleExn "a" demoAnnots hnd
  exact ⟨hnd, (h.2.2.2.1 "a" "1" (by decide)).2,
    (h.2.2.2.1 "b" "2" (by decide)).2,
    h.2.2.2.2 "c" (by decide), h.2.2.1⟩

end Passenger
